import Mathlib

/-
Verification development for the autotraderx trading core.

Shallow embedding conventions:
* Python floats are modelled as exact rationals (ℚ); all thresholds in the
  source are short decimal literals, so every comparison the claims are about
  is exact.
* Trading actions are the plain strings the source uses ("BUY", "SELL",
  "HOLD").
* External effects (database reads, Redis state, LLM calls, the exchange
  client, wall-clock time) are passed in as explicit arguments; logging calls
  are dropped, since they do not feed back into any decision.
* Formatted rationale strings are replaced by short fixed labels; no theorem
  below depends on a rationale text beyond the constant "Emergency detected"
  that the source builds verbatim.
-/

namespace AutoTraderX

/-- Embeds MLSignal (app/ml/predictor.py): the predictor output consumed by
TradingEngine.decide and EmergencyGuard.tripped. -/
structure MLSignal where
  market : String
  buy_probability : ℚ
  sell_probability : ℚ
  emergency_score : ℚ
  confidence : ℚ
deriving DecidableEq, Repr

/-- Embeds the MLSignal.action property (app/ml/predictor.py lines 27-33). -/
def MLSignal.action (s : MLSignal) : String :=
  if s.buy_probability > s.sell_probability ∧ s.buy_probability > 0.55 then "BUY"
  else if s.sell_probability > s.buy_probability ∧ s.sell_probability > 0.55 then "SELL"
  else "HOLD"

/-- Embeds TradeDecisionResult (app/trading/engine.py lines 19-29).  The
source field investment_ratio is named investmentFrac here. -/
structure TradeDecisionResult where
  approved : Bool
  action : String
  market : String
  confidence : ℚ
  rationale : String
  emergency : Bool
  investmentFrac : ℚ := 0.1
  max_loss_acceptable : ℚ := 0.03
  take_profit_target : ℚ := 0.05
deriving DecidableEq, Repr

/-- Embeds SignalFilter.should_allow_trade (app/services/signal_filter.py
lines 89-150), returning only the allow flag (the source also returns a
formatted reason string).  The Redis state is passed explicitly:
lastSignal is the stored last signal (none when absent or expired) and
lastConfidence the stored confidence (the source getter returns 0.0 when
the key is absent). -/
def shouldAllowTrade (lastSignal : Option String) (lastConfidence : ℚ)
    (currentSignal : String) (confidence : ℚ) : Bool :=
  if currentSignal = "HOLD" then false
  else
    match lastSignal with
    | none => true
    | some last =>
      if last ≠ currentSignal then true
      else if 0.90 ≤ lastConfidence then false
      else if currentSignal = "BUY" ∧ 0.70 ≤ confidence then true
      else if currentSignal = "SELL" ∧ 0.75 ≤ confidence then true
      else false

/-- Embeds EmergencyGuard.tripped (app/trading/emergency.py lines 27-35).
The volatility argument is features.get with default 0, so an absent
feature is passed as 0; rules[0].threshold is 0.92. -/
def guardTripped (signal : MLSignal) (volatility : ℚ) : Bool :=
  if volatility > 0.95 then true
  else if signal.emergency_score > 0.92 then true
  else false

/-- Embeds the order-amount arithmetic of TradeExecutor.execute
(app/trading/engine.py lines 243-251): the computed amount
available_balance * investment_ratio is raised to 6000 when below it, then
capped to available_balance * 0.995 when it exceeds the balance. -/
def adjustedTradeAmount (availableBalance frac : ℚ) : ℚ :=
  let t0 := availableBalance * frac
  let t1 := if t0 < 6000 then 6000 else t0
  if t1 > availableBalance then availableBalance * 0.995 else t1

/-- Embeds the skip guard of TradeExecutor.execute (engine.py lines
253-255): the function logs and returns, placing no order, exactly when the
adjusted amount is below 5000. -/
def executeSkipsOrder (availableBalance frac : ℚ) : Bool :=
  decide (adjustedTradeAmount availableBalance frac < 5000)

/-- Embeds the control flow of TradeExecutor.execute (engine.py lines
225-264) up to the exchange call: the pyupbit order section is reached iff
the decision is approved and the skip guard did not fire. -/
def executeCallsExchange (approved : Bool) (availableBalance frac : ℚ) : Bool :=
  if approved = false then false
  else !(executeSkipsOrder availableBalance frac)

/-- Embeds TradingEngine.decide (app/trading/engine.py lines 40-171).
External effects become arguments: configActive is the AutoTradingConfig
row's is_active (false also covers a missing row), ml the HybridPredictor
output, volatility the features volatility entry (0 when absent),
lastSignal/lastConfidence the SignalFilter state, useAi the
use_ai_verification setting, groqOk/ollamaOk the DualLLMVerifier answers
(none models a failed response), hasAccount whether account_info was
passed, and llmInv the (investment_ratio, max_loss_acceptable,
take_profit_target) triple of verifier.decide_investment_ratio. -/
def TradingEngine.decide (configActive : Bool) (market : String) (ml : MLSignal)
    (volatility : ℚ) (lastSignal : Option String) (lastConfidence : ℚ)
    (useAi : Bool) (groqOk ollamaOk : Option Bool) (hasAccount : Bool)
    (llmInv : ℚ × ℚ × ℚ) : TradeDecisionResult :=
  if configActive = false then
    { approved := false, action := "HOLD", market := market, confidence := 0,
      rationale := "System inactive", emergency := false }
  else if ml.confidence = 0 then
    { approved := false, action := "HOLD", market := market, confidence := 0,
      rationale := "ML models disabled", emergency := false }
  else
    let confidence := max ml.buy_probability ml.sell_probability
    if shouldAllowTrade lastSignal lastConfidence ml.action confidence = false then
      { approved := false, action := "HOLD", market := market, confidence := 0,
        rationale := "signal filtered", emergency := false }
    else if guardTripped ml volatility = true then
      { approved := true, action := "SELL", market := market,
        confidence := ml.sell_probability, rationale := "Emergency detected",
        emergency := true, investmentFrac := 1,
        max_loss_acceptable := 0.02, take_profit_target := 0.02 }
    else if useAi = false then
      let frac : ℚ :=
        if 0.8 ≤ confidence then 0.15
        else if 0.7 ≤ confidence then 0.10
        else if 0.6 ≤ confidence then 0.07
        else 0.05
      { approved := Decidable.decide (ml.action ≠ "HOLD"), action := ml.action,
        market := market, confidence := confidence, rationale := "ML only",
        emergency := false, investmentFrac := frac,
        max_loss_acceptable := 0.02, take_profit_target := 0.02 }
    else if groqOk = some false ∧ ollamaOk = some false then
      { approved := false, action := "HOLD", market := market, confidence := 0,
        rationale := "Both LLMs rejected", emergency := false }
    else
      let llmFailed := groqOk = none ∨ ollamaOk = none
      let approved : Bool :=
        if llmFailed then Decidable.decide (ml.action ≠ "HOLD")
        else Decidable.decide (groqOk = some true ∧ ollamaOk = some true ∧ ml.action ≠ "HOLD")
      if approved = true ∧ ¬llmFailed ∧ hasAccount = true then
        { approved := true, action := ml.action, market := market,
          confidence := confidence, rationale := "LLM sized",
          emergency := false, investmentFrac := llmInv.1,
          max_loss_acceptable := llmInv.2.1, take_profit_target := llmInv.2.2 }
      else
        let frac : ℚ :=
          if 0.8 ≤ confidence then 0.3
          else if 0.65 ≤ confidence then 0.2
          else if 0.55 ≤ confidence then 0.1
          else 0.05
        { approved := approved, action := ml.action, market := market,
          confidence := confidence, rationale := "auto sized",
          emergency := false, investmentFrac := frac,
          max_loss_acceptable := 0.03, take_profit_target := 0.05 }

/-- Embeds TradePosition as used by check_and_manage_positions
(app/tasks/trading.py): only the fields that function reads.  created_at is
a timestamp in seconds. -/
structure Position where
  market : String
  entry_price : ℚ
  stop_loss : ℚ
  take_profit : ℚ
  created_at : ℚ
deriving DecidableEq, Repr

/-- The five risk exits issued by check_and_manage_positions
(app/tasks/trading.py lines 62-194), in source order. -/
inductive ExitReason where
  | lossCut
  | hardStop
  | stopLoss
  | takeProfit
  | timeLimit
deriving DecidableEq, Repr

/-- The TradeDecisionResult that check_and_manage_positions constructs for
each exit (app/tasks/trading.py lines 79-87, 96-104, 143-151, 158-166,
185-193); unset dataclass fields keep their defaults 0.03 / 0.05. -/
def exitDecision (market : String) : ExitReason → TradeDecisionResult
  | .lossCut =>
    { approved := true, action := "SELL", market := market, confidence := 1,
      rationale := "Immediate Loss Cut", emergency := true, investmentFrac := 1 }
  | .hardStop =>
    { approved := true, action := "SELL", market := market, confidence := 1,
      rationale := "Hard Stop Limit Triggered", emergency := true, investmentFrac := 1 }
  | .stopLoss =>
    { approved := true, action := "SELL", market := market, confidence := 1,
      rationale := "Stop Loss Triggered", emergency := true, investmentFrac := 1 }
  | .takeProfit =>
    { approved := true, action := "SELL", market := market, confidence := 1,
      rationale := "Take Profit Triggered", emergency := false, investmentFrac := 1 }
  | .timeLimit =>
    { approved := true, action := "SELL", market := market, confidence := 1,
      rationale := "Time Limit Exceeded", emergency := false, investmentFrac := 1 }

/-- Embeds the stop-loss adjustment performed per position by
check_and_manage_positions (app/tasks/trading.py lines 108-137): when the
two PnL loss cuts did not fire (they continue past the update code), the
stop is first tightened to price * 0.995 when PnL is in (-0.025, -0.015]
and that is higher, then trailed to max(price * 0.98, entry * 1.002) when
price > entry * 1.015 and that is higher. -/
def nextStop (entry price stop : ℚ) : ℚ :=
  let pnl := (price - entry) / entry
  if pnl ≤ -0.025 then stop
  else
    let s1 := if pnl ≤ -0.015 ∧ pnl > -0.025 then
        (if price * 0.995 > stop then price * 0.995 else stop)
      else stop
    if price > entry * 1.015 then
      (let ts := max (price * 0.98) (entry * 1.002)
       if ts > s1 then ts else s1)
    else s1

/-- Embeds the per-position body of check_and_manage_positions
(app/tasks/trading.py lines 62-194): the emitted exit (if any) and the
position's stop_loss after the update rules.  maxHold is
settings.max_position_hold_minutes, now the current wall-clock time in
seconds. -/
def managePosition (maxHold now price : ℚ) (pos : Position) :
    Option ExitReason × ℚ :=
  let pnl := (price - pos.entry_price) / pos.entry_price
  if pnl ≤ -0.025 then (some .lossCut, pos.stop_loss)
  else if pnl ≤ -0.035 then (some .hardStop, pos.stop_loss)
  else
    let newStop := nextStop pos.entry_price price pos.stop_loss
    if price ≤ newStop then (some .stopLoss, newStop)
    else if price ≥ pos.take_profit then (some .takeProfit, newStop)
    else if maxHold > 0 ∧ now - pos.created_at > maxHold * 60 then
      (some .timeLimit, newStop)
    else (none, newStop)

/-- First entry of the list whose flag is set; used to phrase the spec's
ordered risk-exit checks. -/
def firstHit : List (ExitReason × Bool) → Option ExitReason
  | [] => none
  | (r, b) :: rest => if b then some r else firstHit rest

/-- Written from the spec's wording for claim C3: the five risk-exit
checks as an ordered first-match list (PnL loss cut, hard stop, stop-loss
breach against the adjusted stop, take-profit, hold-time limit). -/
def riskExitSpec (maxHold now price : ℚ) (pos : Position) : Option ExitReason :=
  let pnl := (price - pos.entry_price) / pos.entry_price
  let stop := nextStop pos.entry_price price pos.stop_loss
  firstHit
    [(.lossCut, decide (pnl ≤ -0.025)),
     (.hardStop, decide (pnl ≤ -0.035)),
     (.stopLoss, decide (price ≤ stop)),
     (.takeProfit, decide (price ≥ pos.take_profit)),
     (.timeLimit, decide (maxHold > 0) && decide (now - pos.created_at > maxHold * 60))]

/-- Iterate the stop-loss update over a sequence of price ticks (the
per-cycle evaluation of one OPEN position against successive prices). -/
def runStops (entry stop : ℚ) (ticks : List ℚ) : ℚ :=
  ticks.foldl (fun s p => nextStop entry p s) stop

/-- Python max over a nonempty list with a key function: the first element
attaining the maximal key (later elements replace only on strictly greater
key). -/
def pyMaxBy (f : String → ℕ) (x : String) (xs : List String) : String :=
  xs.foldl (fun acc y => if f y > f acc then y else acc) x

/-- Keep the first occurrence of each element, dropping later duplicates
(the insertion order of the Python vote_counts dict keys). -/
def dedupFirst : List String → List String
  | [] => []
  | x :: xs => x :: (dedupFirst xs).filter (fun y => y ≠ x)

/-- Embeds the three-layer voting tail of
EnhancedTradingEngine._combine_signals (app/trading/enhanced_engine.py
lines 214-266): majority vote over the truthy signals with weights
0.3 / 0.3 / 0.4, then a 1.0 / 0.8 / 0.6 factor by vote count. -/
def rlVote (hybridAction : String) (hybridConf : ℚ) (mtfAction : String)
    (mtfConf : ℚ) (rl : Option (String × ℚ)) : String × ℚ :=
  let rlAction : Option String := rl.map Prod.fst
  let count : String → ℕ := fun s =>
    (if hybridAction = s then 1 else 0) + (if mtfAction = s then 1 else 0) +
      (if rlAction = some s then 1 else 0)
  let keys := dedupFirst
    (([some hybridAction, some mtfAction, rlAction].filterMap id).filter
      (fun s => s ≠ ""))
  match keys with
  | [] => ("HOLD", 0.3)
  | k :: ks =>
    let winning := pyMaxBy count k ks
    let voteCount := count winning
    let totalConf : ℚ :=
      (if hybridAction = winning then hybridConf * 0.3 else 0) +
        (if mtfAction = winning then mtfConf * 0.3 else 0) +
        (match rl with
         | some (a, c) => if a = winning then c * 0.4 else 0
         | none => 0)
    let totalWeight : ℚ :=
      (if hybridAction = winning then (0.3 : ℚ) else 0) +
        (if mtfAction = winning then (0.3 : ℚ) else 0) +
        (match rl with
         | some (a, _) => if a = winning then (0.4 : ℚ) else 0
         | none => 0)
    let finalConf := if totalWeight > 0 then totalConf / totalWeight else 0.3
    if voteCount = 3 then (winning, finalConf)
    else if voteCount = 2 then (winning, finalConf * 0.8)
    else (winning, finalConf * 0.6)

/-- Embeds EnhancedTradingEngine._combine_signals
(app/trading/enhanced_engine.py lines 168-266), returning (action,
confidence); the formatted reason string is dropped.  hasRl is the
engine's has_rl flag; rl bundles rl_action and rl_conf (none models
rl_action is None).  When the two-layer branch is taken, its if chain is
exhaustive over the possible action pairs; the source would otherwise fall
through to the voting tail, mirrored here by the final rlVote call. -/
def combineSignals (hybridAction : String) (hybridConf : ℚ) (mtfAction : String)
    (mtfConf : ℚ) (hasRl : Bool) (rl : Option (String × ℚ)) : String × ℚ :=
  if rl = none ∨ hasRl = false then
    if hybridAction = "HOLD" ∧ mtfAction = "HOLD" then ("HOLD", 0.3)
    else if hybridAction = mtfAction ∧ hybridAction ≠ "HOLD" then
      (hybridAction, min 0.95 ((hybridConf + mtfConf) / 2 * 1.2))
    else if hybridAction ≠ "HOLD" ∧ mtfAction = "HOLD" then
      (hybridAction, hybridConf * 0.9)
    else if hybridAction = "HOLD" ∧ mtfAction ≠ "HOLD" then
      (mtfAction, mtfConf * 0.9)
    else if hybridAction ≠ mtfAction ∧ hybridAction ≠ "HOLD" ∧ mtfAction ≠ "HOLD" then
      (if hybridConf > mtfConf then (hybridAction, hybridConf * 0.6)
       else (mtfAction, mtfConf * 0.6))
    else rlVote hybridAction hybridConf mtfAction mtfConf rl
  else rlVote hybridAction hybridConf mtfAction mtfConf rl

/-- Embeds ReversalTradingStrategy.analyze
(app/trading/reversal_strategy.py lines 26-72) at the indicator level,
returning (action, confidence); the formatted rationale is dropped.
dataOk models len(df) >= 15; prevClose is the last candle close the live
price is compared against; bbUpper/bbLower the Bollinger band edges; the
thresholds are volatility_threshold 2.0, rsi_sell_threshold 75,
rsi_buy_threshold 25. -/
def reversalAnalyze (dataOk : Bool) (currentPrice prevClose rsi bbUpper bbLower : ℚ) :
    String × ℚ :=
  if dataOk = false then ("HOLD", 0)
  else
    let priceChangePct := (currentPrice - prevClose) / prevClose * 100
    if currentPrice > bbUpper ∧ rsi > 75 then
      (if priceChangePct > 2 then ("SELL", 0.85 + (min rsi 90 - 70) / 100)
       else ("HOLD", 0))
    else if currentPrice < bbLower ∧ rsi < 25 then
      (if priceChangePct < -2 then ("BUY", 0.85 + (30 - max rsi 10) / 100)
       else ("HOLD", 0))
    else ("HOLD", 0)

/-- The indicator values BreakoutTradingStrategy.analyze
(app/trading/breakout_strategy.py) extracts from the candle window before
branching: current candle volume / 20-period volume average / close / open,
the two moving averages, current and previous RSI, previous close, and the
20-period prior high (df.high.iloc with len(df) >= 22).  The window is
assumed long enough (len(df) >= 50, as the entry guard requires). -/
structure CandleView where
  volume : ℚ
  volMa20 : ℚ
  close : ℚ
  openPrice : ℚ
  ma5 : ℚ
  ma20 : ℚ
  rsi : ℚ
  prevRsi : ℚ
  prevClose : ℚ
  recentHigh : ℚ
deriving DecidableEq, Repr

/-- Embeds the volume-bonus if/elif chain of the BUY branch
(app/trading/breakout_strategy.py lines 89-95): +0.15 when volume exceeds
2x the average, else +0.2 when it exceeds 3x. -/
def volBonus (volume volMa20 : ℚ) : ℚ :=
  if volume > volMa20 * 2.0 then 0.15
  else if volume > volMa20 * 3.0 then 0.2
  else 0

/-- Embeds the MA20-breakout bonus (breakout_strategy.py lines 77-79):
+0.15 when the candle closes above MA20 and above its open. -/
def buyBonusPrice (c : CandleView) : ℚ :=
  if c.close > c.ma20 ∧ c.close > c.openPrice then 0.15 else 0

/-- Embeds the prior-high-breakout bonus (breakout_strategy.py lines
81-83): +0.2 when the close exceeds the 20-period prior high. -/
def buyBonusHigh (c : CandleView) : ℚ :=
  if c.close > c.recentHigh then 0.2 else 0

/-- Embeds the trend-alignment bonus (breakout_strategy.py lines 85-87):
+0.1 when MA5 is above MA20. -/
def buyBonusTrend (c : CandleView) : ℚ :=
  if c.ma5 > c.ma20 then 0.1 else 0

/-- Embeds the RSI-momentum bonus (breakout_strategy.py lines 98-100):
+0.05 when RSI lies in [55, 70]. -/
def buyBonusRsi (c : CandleView) : ℚ :=
  if 55 ≤ c.rsi ∧ c.rsi ≤ 70 then 0.05 else 0

/-- Embeds the BUY-branch confidence (breakout_strategy.py lines 74-103):
base 0.55 plus the corroborating bonuses, capped at 0.95. -/
def buyConfidence (c : CandleView) : ℚ :=
  min (0.55 + buyBonusPrice c + buyBonusHigh c + buyBonusTrend c +
        volBonus c.volume c.volMa20 + buyBonusRsi c) 0.95

/-- Embeds the msg list length of the BUY branch (breakout_strategy.py
lines 73-100): one entry per corroborating condition that fired (the
volume entry fires on either volume branch). -/
def buyMsgCount (c : CandleView) : ℕ :=
  (if c.close > c.ma20 ∧ c.close > c.openPrice then 1 else 0) +
    (if c.close > c.recentHigh then 1 else 0) +
    (if c.ma5 > c.ma20 then 1 else 0) +
    (if c.volume > c.volMa20 * 2.0 ∨ c.volume > c.volMa20 * 3.0 then 1 else 0) +
    (if 55 ≤ c.rsi ∧ c.rsi ≤ 70 then 1 else 0)

/-- Embeds BreakoutTradingStrategy.analyze
(app/trading/breakout_strategy.py lines 29-139) at the indicator level,
returning (action, confidence); formatted rationales dropped.  Parameters:
vol_multiplier 1.5, rsi_min 45, rsi_max 88. -/
def breakoutAnalyze (c : CandleView) : String × ℚ :=
  let buyResult : Option (String × ℚ) :=
    if c.volume > c.volMa20 * 1.5 ∧ 45 ≤ c.rsi ∧ c.rsi ≤ 88 then
      (if 1 ≤ buyMsgCount c then some ("BUY", buyConfidence c) else none)
    else none
  match buyResult with
  | some r => r
  | none =>
    if c.prevRsi ≥ 80 ∧ c.rsi < 78 then ("SELL", 0.85)
    else if c.rsi > 88 then ("SELL", 0.75)
    else if c.ma5 < c.ma20 then ("SELL", 0.8)
    else if c.close < c.ma20 * 0.995 then ("SELL", 0.7)
    else if (c.close - c.prevClose) / c.prevClose * 100 ≤ -1.5 then ("SELL", 0.75)
    else ("HOLD", 0)

/-- Embeds PumpPredictor.update_tick (app/trading/pump_predictor.py lines
76-89): append the new (timestamp, price, volume) sample, then drop every
sample whose timestamp is not newer than now - max_history_size (the
constant 120 used as a cutoff in seconds). -/
def updateTick (now price volume : ℚ) (history : List (ℚ × ℚ × ℚ)) :
    List (ℚ × ℚ × ℚ) :=
  (history ++ [(now, price, volume)]).filter (fun e => e.1 > now - 120)

/-- Feed a sequence of ticks at the given timestamps (price and volume
fixed at 1) into an initially empty per-market history. -/
def feedTicks (times : List ℚ) : List (ℚ × ℚ × ℚ) :=
  times.foldl (fun h t => updateTick t 1 1 h) []

/-- Written from claim C4 as amended: the spec's two upward-only stop
rules with the trailing trigger strict (price > entry * 1.015), phrased
with max. -/
def specStopUpdate (entry price stop : ℚ) : ℚ :=
  let pnl := (price - entry) / entry
  let s1 := if -0.025 < pnl ∧ pnl ≤ -0.015 then max stop (price * 0.995) else stop
  if price > entry * 1.015 then max s1 (max (price * 0.98) (entry * 1.002)) else s1

/-- A candle window satisfying claim C8's stated premises: RSI 25, price
above MA5 above MA20 on a bullish candle, volume 3x its 20-period
average. -/
def c8window : CandleView :=
  { volume := 300, volMa20 := 100, close := 100, openPrice := 99, ma5 := 98,
    ma20 := 97, rsi := 25, prevRsi := 50, prevClose := 100, recentHigh := 105 }

/-- 121 tick timestamps half a second apart (0, 0.5, ..., 60 seconds): a
two-a-second feed for one minute. -/
def c9times : List ℚ :=
  (List.range 121).map (fun k : ℕ => (k : ℚ) / 2)

/- ------------------------------------------------------------------ -/
/- Helper lemmas shared by the claim theorems.                         -/
/- ------------------------------------------------------------------ -/

/-- A Python-style conditional maximum equals max. -/
theorem if_gt_eq_max (a b : ℚ) : (if b > a then b else a) = max a b := by
  rcases le_or_lt b a with h | h
  · rw [if_neg (not_lt.mpr h), max_eq_left h]
  · rw [if_pos h, max_eq_right h.le]

/-- Each breakout BUY bonus is nonnegative. -/
theorem buyBonuses_nonneg (c : CandleView) :
    0 ≤ buyBonusPrice c ∧ 0 ≤ buyBonusHigh c ∧ 0 ≤ buyBonusTrend c ∧
      0 ≤ volBonus c.volume c.volMa20 ∧ 0 ≤ buyBonusRsi c := by
  unfold buyBonusPrice buyBonusHigh buyBonusTrend volBonus buyBonusRsi
  refine ⟨?_, ?_, ?_, ?_, ?_⟩ <;> split_ifs <;> norm_num

/-- The stop-loss update never lowers the stored stop. -/
theorem nextStop_le (e p s : ℚ) : s ≤ nextStop e p s := by
  simp only [nextStop]
  split_ifs <;>
    first
      | exact le_refl s
      | linarith [le_max_left (p * 0.98) (e * 1.002)]

/-- Iterating the stop-loss update over any tick sequence never lowers the
stop. -/
theorem runStops_le (e : ℚ) : ∀ (ticks : List ℚ) (s : ℚ), s ≤ runStops e s ticks := by
  intro ticks
  induction ticks with
  | nil => intro s; simp [runStops]
  | cons p ps ih =>
    intro s
    simp only [runStops, List.foldl_cons]
    exact le_trans (nextStop_le e p s) (ih (nextStop e p s))

/-- When every retained sample is inside the new tick's window, update_tick
grows the history by exactly one sample. -/
theorem updateTick_length (now p v : ℚ) (h : List (ℚ × ℚ × ℚ))
    (hh : ∀ e ∈ h, now - 120 < e.1) :
    (updateTick now p v h).length = h.length + 1 := by
  unfold updateTick
  rw [List.filter_append]
  have h1 : h.filter (fun e => decide (e.1 > now - 120)) = h := by
    apply List.filter_eq_self.mpr
    intro a ha
    simpa using hh a ha
  have h2 : [(now, p, v)].filter (fun e => decide (e.1 > now - 120)) = [(now, p, v)] := by
    simp only [List.filter, decide_eq_true_eq]
    norm_num
  rw [h1, h2, List.length_append, List.length_singleton]

/-- Feeding ticks whose timestamps all lie in [0, 120) never evicts a
sample, so the history length equals the number of ticks plus the initial
length. -/
theorem foldTicks_length :
    ∀ (ts : List ℚ) (acc : List (ℚ × ℚ × ℚ)),
      (∀ e ∈ acc, 0 ≤ e.1) → (∀ t ∈ ts, 0 ≤ t ∧ t < 120) →
      (ts.foldl (fun h t => updateTick t 1 1 h) acc).length = acc.length + ts.length := by
  intro ts
  induction ts with
  | nil => intro acc _ _; simp
  | cons t ts ih =>
    intro acc hacc hts
    simp only [List.foldl_cons]
    have ht := hts t (by simp)
    have hwin : ∀ e ∈ acc, t - 120 < e.1 := by
      intro e he
      have := hacc e he
      linarith [ht.2]
    have hpos : ∀ e ∈ updateTick t 1 1 acc, 0 ≤ e.1 := by
      intro e he
      unfold updateTick at he
      rcases List.mem_filter.mp he with ⟨hmem, _⟩
      rcases List.mem_append.mp hmem with hm | hm
      · exact hacc e hm
      · simp only [List.mem_singleton] at hm
        subst hm
        exact ht.1
    have := ih (updateTick t 1 1 acc) hpos (fun u hu => hts u (by simp [hu]))
    rw [this, updateTick_length t 1 1 acc hwin]
    simp only [List.length_cons]
    omega

/- ------------------------------------------------------------------ -/
/- Claim theorems.                                                     -/
/- ------------------------------------------------------------------ -/

/-- Claim C1, counterexample: with available_balance 30000 and
investment_ratio 0.1 the computed trade_amount is 3000, below the 5000
minimum, yet TradeExecutor.execute does not return early: the amount is
raised to 6000 and the exchange order section is reached. -/
theorem claim1_counterexample :
    (30000 : ℚ) * 0.1 = 3000 ∧ (3000 : ℚ) < 5000 ∧
      adjustedTradeAmount 30000 0.1 = 6000 ∧
      executeCallsExchange true 30000 0.1 = true := by
  norm_num [adjustedTradeAmount, executeCallsExchange, executeSkipsOrder]

/-- Claim C1 as amended: TradeExecutor.execute skips the exchange call
exactly when the adjusted amount — the computed amount raised to the 6000
minimum and then capped at available_balance * 0.995 when it exceeds the
balance — is below 5000, which happens iff available_balance * 0.995 <
5000, independently of the investment ratio. -/
theorem claim1_skip_iff_balance_below_minimum :
    ∀ availableBalance frac : ℚ,
      executeSkipsOrder availableBalance frac = true ↔
        availableBalance * 0.995 < 5000 := by
  intro a f
  simp only [executeSkipsOrder, adjustedTradeAmount, decide_eq_true_eq]
  split_ifs with h1 h2 h2 <;> constructor <;> intro hx <;> linarith

/-- Claim C5: SignalFilter.should_allow_trade never allows a HOLD signal,
always allows a BUY/SELL direction change, and on a repeated signal rejects
whenever the stored confidence is at least 0.90 and otherwise allows iff
the new confidence meets the 0.70 (BUY) or 0.75 (SELL) threshold. -/
theorem claim5_filter_decision_table :
    (∀ (ls : Option String) (lc conf : ℚ), shouldAllowTrade ls lc "HOLD" conf = false) ∧
      (∀ lc conf : ℚ, shouldAllowTrade (some "BUY") lc "SELL" conf = true) ∧
      (∀ lc conf : ℚ, shouldAllowTrade (some "SELL") lc "BUY" conf = true) ∧
      (∀ lc conf : ℚ, shouldAllowTrade (some "BUY") lc "BUY" conf =
        if 0.90 ≤ lc then false else Decidable.decide (0.70 ≤ conf)) ∧
      (∀ lc conf : ℚ, shouldAllowTrade (some "SELL") lc "SELL" conf =
        if 0.90 ≤ lc then false else Decidable.decide (0.75 ≤ conf)) := by
  refine ⟨?_, ?_, ?_, ?_, ?_⟩
  · intro ls lc conf
    simp [shouldAllowTrade]
  · intro lc conf
    simp [shouldAllowTrade]
  · intro lc conf
    simp [shouldAllowTrade]
  · intro lc conf
    simp only [shouldAllowTrade]
    split_ifs <;> simp_all
  · intro lc conf
    simp only [shouldAllowTrade]
    split_ifs <;> simp_all

/-- Claim C7, counterexample: at RSI 90 with price 103 above the upper
band 102 and a 3 percent surge over the last close 100, the mean-reversion
layer emits SELL with confidence 0.85 + (min 90 90 - 70) / 100 = 1.05,
which exceeds 1. -/
theorem claim7_counterexample :
    reversalAnalyze true 103 100 90 102 0 = ("SELL", 1.05) ∧ (1.05 : ℚ) > 1 := by
  norm_num [reversalAnalyze]

/-- Claim C7 as amended: every mean-reversion signal confidence lies in
[0, 1.05] — nonnegative, but bounded by 1.05 rather than 1 (the SELL
formula exceeds 1 for RSI above 85, the BUY formula for RSI below 15). -/
theorem claim7_confidence_bounds :
    ∀ (dataOk : Bool) (currentPrice prevClose rsi bbUpper bbLower : ℚ),
      0 ≤ (reversalAnalyze dataOk currentPrice prevClose rsi bbUpper bbLower).2 ∧
        (reversalAnalyze dataOk currentPrice prevClose rsi bbUpper bbLower).2 ≤ 1.05 := by
  intro dataOk cp pc rsi bu bl
  simp only [reversalAnalyze]
  split_ifs with h0 h1 h2 h3 h4
  · norm_num
  · have hmin₁ := min_le_right rsi (90 : ℚ)
    have hmin₂ : (75 : ℚ) < min rsi 90 := lt_min h1.2 (by norm_num)
    exact ⟨by linarith, by linarith⟩
  · norm_num
  · have hmax₁ := le_max_right rsi (10 : ℚ)
    have hmax₂ : max rsi 10 < 25 := max_lt h3.2 (by norm_num)
    exact ⟨by linarith, by linarith⟩
  · norm_num
  · norm_num

/-- Claim C10: because the 2x-average branch is tested first, the
volume-based confidence bonus in the breakout BUY branch is at most 0.15
for every window with a nonnegative volume average, and the 0.2 bonus of
the 3x elif branch is unreachable. -/
theorem claim10_volume_bonus_capped :
    ∀ volume volMa20 : ℚ, 0 ≤ volMa20 →
      volBonus volume volMa20 ≤ 0.15 ∧ volBonus volume volMa20 ≠ 0.2 := by
  intro v a ha
  unfold volBonus
  split_ifs with h1 h2
  · exact ⟨by norm_num, by norm_num⟩
  · exfalso
    norm_num at h1 h2
    linarith
  · exact ⟨by norm_num, by norm_num⟩

/-- Claim C10 witness: the bound at the concrete window with volume 600
against a 20-period average of 100. -/
theorem claim10_witness :
    volBonus 600 100 ≤ 0.15 ∧ volBonus 600 100 ≠ 0.2 :=
  claim10_volume_bonus_capped 600 100 (by norm_num)

/-- Claim C2, counterexample: the guard trips on emergency_score 0.95, but
because TradingEngine.decide consults the SignalFilter first, a stored
high-confidence SELL (last_confidence 0.95) suppresses the signal and
decide returns an unapproved HOLD with emergency = false instead of the
claimed full-size emergency SELL. -/
theorem claim2_counterexample :
    guardTripped ⟨"KRW-BTC", 0.2, 0.8, 0.95, 0.8⟩ 0 = true ∧
      TradingEngine.decide true "KRW-BTC" ⟨"KRW-BTC", 0.2, 0.8, 0.95, 0.8⟩ 0
          (some "SELL") 0.95 true none none false (0, 0, 0) =
        { approved := false, action := "HOLD", market := "KRW-BTC", confidence := 0,
          rationale := "signal filtered", emergency := false } := by
  constructor
  · norm_num [guardTripped]
  · norm_num [TradingEngine.decide, shouldAllowTrade, MLSignal.action, guardTripped]

/-- Claim C2 as amended: the emergency override fires only after the
SignalFilter.  If the config is active, the ML confidence is nonzero and
the filter allows the signal, a tripped guard makes decide return the
approved full-size emergency SELL regardless of the verification settings;
but if the filter rejects the signal, decide returns an unapproved
non-emergency HOLD even when the guard would trip. -/
theorem claim2_emergency_after_filter :
    ∀ (market : String) (ml : MLSignal) (volatility : ℚ) (lastSignal : Option String)
      (lastConfidence : ℚ) (useAi : Bool) (groqOk ollamaOk : Option Bool)
      (hasAccount : Bool) (llmInv : ℚ × ℚ × ℚ),
      (ml.confidence ≠ 0 →
        shouldAllowTrade lastSignal lastConfidence ml.action
            (max ml.buy_probability ml.sell_probability) = true →
        guardTripped ml volatility = true →
        TradingEngine.decide true market ml volatility lastSignal lastConfidence
            useAi groqOk ollamaOk hasAccount llmInv =
          { approved := true, action := "SELL", market := market,
            confidence := ml.sell_probability, rationale := "Emergency detected",
            emergency := true, investmentFrac := 1,
            max_loss_acceptable := 0.02, take_profit_target := 0.02 }) ∧
      (ml.confidence ≠ 0 →
        shouldAllowTrade lastSignal lastConfidence ml.action
            (max ml.buy_probability ml.sell_probability) = false →
        (TradingEngine.decide true market ml volatility lastSignal lastConfidence
            useAi groqOk ollamaOk hasAccount llmInv).action = "HOLD" ∧
          (TradingEngine.decide true market ml volatility lastSignal lastConfidence
            useAi groqOk ollamaOk hasAccount llmInv).approved = false ∧
          (TradingEngine.decide true market ml volatility lastSignal lastConfidence
            useAi groqOk ollamaOk hasAccount llmInv).emergency = false) := by
  intro market ml vol ls lc useAi g o acct inv
  constructor
  · intro h1 h2 h3
    simp [TradingEngine.decide, h1, h2, h3]
  · intro h1 h2
    simp [TradingEngine.decide, h1, h2]

/-- Claim C2 witness: the amended theorem at a concrete signal.  A stored
BUY makes the new SELL a direction change, so the filter allows it and the
tripped guard yields the full-size emergency SELL; with the stored
high-confidence SELL instead, the same signal comes back as HOLD. -/
theorem claim2_witness :
    TradingEngine.decide true "KRW-BTC" ⟨"KRW-BTC", 0.2, 0.8, 0.95, 0.8⟩ 0
        (some "BUY") 0.95 true none none false (0, 0, 0) =
      { approved := true, action := "SELL", market := "KRW-BTC", confidence := 0.8,
        rationale := "Emergency detected", emergency := true, investmentFrac := 1,
        max_loss_acceptable := 0.02, take_profit_target := 0.02 } ∧
      (TradingEngine.decide true "KRW-BTC" ⟨"KRW-BTC", 0.2, 0.8, 0.95, 0.8⟩ 0
        (some "SELL") 0.95 true none none false (0, 0, 0)).action = "HOLD" := by
  constructor
  · exact (claim2_emergency_after_filter "KRW-BTC" ⟨"KRW-BTC", 0.2, 0.8, 0.95, 0.8⟩ 0
      (some "BUY") 0.95 true none none false (0, 0, 0)).1
      (by norm_num)
      (by norm_num [shouldAllowTrade, MLSignal.action]; decide)
      (by norm_num [guardTripped])
  · exact ((claim2_emergency_after_filter "KRW-BTC" ⟨"KRW-BTC", 0.2, 0.8, 0.95, 0.8⟩ 0
      (some "SELL") 0.95 true none none false (0, 0, 0)).2
      (by norm_num)
      (by norm_num [shouldAllowTrade, MLSignal.action])).1

/-- Claim C6: in the two-layer path of the signal combiner (no RL layer),
two HOLDs give (HOLD, 0.3); agreement on a non-HOLD action gives that
action at min(0.95, average confidence * 1.2); a single firing layer gives
its action at confidence * 0.9; and a BUY/SELL conflict gives the strictly
higher-confidence action at its confidence * 0.6. -/
theorem claim6_two_layer_combination :
    (∀ (hc mc : ℚ) (b : Bool), combineSignals "HOLD" hc "HOLD" mc b none = ("HOLD", 0.3)) ∧
      (∀ (a : String) (hc mc : ℚ) (b : Bool), a ≠ "HOLD" →
        combineSignals a hc a mc b none = (a, min 0.95 ((hc + mc) / 2 * 1.2))) ∧
      (∀ (a : String) (hc mc : ℚ) (b : Bool), a ≠ "HOLD" →
        combineSignals a hc "HOLD" mc b none = (a, hc * 0.9)) ∧
      (∀ (a : String) (hc mc : ℚ) (b : Bool), a ≠ "HOLD" →
        combineSignals "HOLD" hc a mc b none = (a, mc * 0.9)) ∧
      (∀ (a a' : String) (hc mc : ℚ) (b : Bool),
        a ≠ "HOLD" → a' ≠ "HOLD" → a ≠ a' → mc < hc →
        combineSignals a hc a' mc b none = (a, hc * 0.6)) ∧
      (∀ (a a' : String) (hc mc : ℚ) (b : Bool),
        a ≠ "HOLD" → a' ≠ "HOLD" → a ≠ a' → hc < mc →
        combineSignals a hc a' mc b none = (a', mc * 0.6)) := by
  refine ⟨?_, ?_, ?_, ?_, ?_, ?_⟩
  · intro hc mc b
    simp [combineSignals]
  · intro a hc mc b ha
    simp [combineSignals, ha]
  · intro a hc mc b ha
    simp [combineSignals, ha]
  · intro a hc mc b ha
    simp [combineSignals, ha]
  · intro a a' hc mc b ha ha' hne hlt
    simp [combineSignals, ha, ha', hne, hlt]
  · intro a a' hc mc b ha ha' hne hlt
    simp [combineSignals, ha, ha', hne, not_lt.mpr (le_of_lt hlt), hlt]

/-- Claim C3: per OPEN position, the emitted risk exit is the first match
of the five checks in the fixed order loss cut (PnL at most -2.5
percent), hard stop (PnL at most -3.5 percent), stop-loss breach,
take-profit, hold-time limit — evaluating at most one exit per position —
and every exit decision is an approved full-size SELL (investment ratio
1.0). -/
theorem claim3_risk_exit_priority :
    ∀ (maxHold now price : ℚ) (pos : Position),
      (managePosition maxHold now price pos).1 = riskExitSpec maxHold now price pos ∧
        (∀ (m : String) (r : ExitReason),
          (exitDecision m r).action = "SELL" ∧
            (exitDecision m r).investmentFrac = 1 ∧
            (exitDecision m r).approved = true) := by
  intro mh n p pos
  constructor
  · simp only [managePosition, riskExitSpec, firstHit, Bool.and_eq_true,
      decide_eq_true_eq]
    split_ifs <;> rfl
  · intro m r
    cases r <;> simp [exitDecision]

/-- Claim C4, counterexample: at entry 1000, current price 1015 and stop
1000, the price sits exactly at entry * 1.015 and the claimed trailing
value max(1015 * 0.98, 1000 * 1.002) = 1002 exceeds the stop, yet the code
leaves the stop at 1000 because its trigger is strict (price > entry *
1.015). -/
theorem claim4_counterexample :
    nextStop 1000 1015 1000 = 1000 ∧ (1000 : ℚ) * 1.015 ≤ 1015 ∧
      1000 < max ((1015 : ℚ) * 0.98) ((1000 : ℚ) * 1.002) := by
  refine ⟨by norm_num [nextStop], by norm_num, lt_max_iff.mpr (Or.inr (by norm_num))⟩

/-- Claim C4 as amended: over every tick sequence the stop-loss is
non-decreasing (no code path lowers it), and the per-tick update is
exactly the claimed pair of upward-only rules with the trailing trigger
read strictly (price > entry * 1.015, not ≥). -/
theorem claim4_stop_monotone :
    (∀ (entry stop : ℚ) (ticks : List ℚ), stop ≤ runStops entry stop ticks) ∧
      (∀ entry price stop : ℚ, 0 < entry →
        nextStop entry price stop = specStopUpdate entry price stop) := by
  constructor
  · intro e s ticks
    exact runStops_le e ticks s
  · intro e p s he
    simp only [nextStop, specStopUpdate, if_gt_eq_max]
    by_cases h1 : (p - e) / e ≤ -0.025
    · rw [if_pos h1]
      have hp : p - e ≤ -0.025 * e := (div_le_iff₀ he).mp h1
      have htr : ¬p > e * 1.015 := by
        intro hc
        linarith
      have hs1 : ¬(-0.025 < (p - e) / e ∧ (p - e) / e ≤ -0.015) := by
        intro hc
        linarith [hc.1]
      rw [if_neg htr, if_neg hs1]
    · rw [if_neg h1]
      push_neg at h1
      have hcond : ((p - e) / e ≤ -0.015 ∧ (p - e) / e > -0.025) =
          (-0.025 < (p - e) / e ∧ (p - e) / e ≤ -0.015) := by
        apply propext
        exact ⟨fun h => ⟨h.2, h.1⟩, fun h => ⟨h.2, h.1⟩⟩
      simp only [hcond]

/-- Claim C4 witness: the amended theorem at entry price 1000, a stop of
3 and the tick sequence 1020, 980. -/
theorem claim4_witness :
    (3 : ℚ) ≤ runStops 1000 3 [1020, 980] ∧
      nextStop 1000 1020 3 = specStopUpdate 1000 1020 3 :=
  ⟨claim4_stop_monotone.1 1000 3 [1020, 980],
    claim4_stop_monotone.2 1000 1020 3 (by norm_num)⟩

/-- Claim C8, counterexample: a window with RSI 25, price above MA5 above
MA20 on a bullish candle and volume at 3x its 20-period average satisfies
every premise of the claimed scenario, yet the breakout layer returns
(HOLD, 0) — not BUY — because its RSI gate requires RSI in [45, 88] (the
MACD histogram is not consulted by this layer at all). -/
theorem claim8_counterexample :
    breakoutAnalyze c8window = ("HOLD", 0) ∧ c8window.rsi = 25 ∧
      c8window.ma20 < c8window.ma5 ∧ c8window.ma5 < c8window.close ∧
      c8window.openPrice < c8window.close ∧
      c8window.volMa20 * 1.5 < c8window.volume := by
  norm_num [breakoutAnalyze, buyMsgCount, buyConfidence, c8window]

/-- Claim C8 as amended: for every window whose RSI lies in the layer's
[45, 88] gate, with a bullish candle closing above MA5 above MA20 and
volume above 1.5x its 20-period average, the breakout layer returns BUY
with confidence at least 0.7 (at RSI 25 the gate fails and no BUY is
possible; the MACD histogram premise is vacuous since the layer never
reads MACD). -/
theorem claim8_breakout_buy :
    ∀ c : CandleView,
      45 ≤ c.rsi → c.rsi ≤ 88 → c.openPrice < c.close → c.ma5 < c.close →
      c.ma20 < c.ma5 → c.volMa20 * 1.5 < c.volume →
      (breakoutAnalyze c).1 = "BUY" ∧ 0.7 ≤ (breakoutAnalyze c).2 := by
  intro c h45 h88 hopen hma5 hma20 hvol
  have hma20c : c.ma20 < c.close := lt_trans hma20 hma5
  have hguard : c.volume > c.volMa20 * 1.5 ∧ 45 ≤ c.rsi ∧ c.rsi ≤ 88 :=
    ⟨hvol, h45, h88⟩
  have hmsg : 1 ≤ buyMsgCount c := by
    unfold buyMsgCount
    rw [if_pos ⟨hma20c, hopen⟩]
    omega
  have hconf : 0.7 ≤ buyConfidence c := by
    obtain ⟨hb1, hb2, hb3, hb4, hb5⟩ := buyBonuses_nonneg c
    have hprice : buyBonusPrice c = 0.15 := by
      unfold buyBonusPrice
      rw [if_pos ⟨hma20c, hopen⟩]
    have htrend : buyBonusTrend c = 0.1 := by
      unfold buyBonusTrend
      rw [if_pos hma20]
    unfold buyConfidence
    apply le_min _ (by norm_num)
    rw [hprice, htrend]
    linarith
  simp only [breakoutAnalyze]
  rw [if_pos hguard, if_pos hmsg]
  exact ⟨rfl, hconf⟩

/-- Claim C8 witness: the amended theorem at the counterexample window
with its RSI moved to 55, inside the layer's gate. -/
theorem claim8_witness :
    (breakoutAnalyze { c8window with rsi := 55 }).1 = "BUY" ∧
      0.7 ≤ (breakoutAnalyze { c8window with rsi := 55 }).2 :=
  claim8_breakout_buy { c8window with rsi := 55 } (by norm_num [c8window])
    (by norm_num [c8window]) (by norm_num [c8window]) (by norm_num [c8window])
    (by norm_num [c8window]) (by norm_num [c8window])

/-- Claim C9, counterexample: feeding 121 ticks spaced half a second
apart (all inside the 120-second window) leaves 121 samples in the
history, exceeding the claimed 120-sample bound — update_tick prunes by
timestamp age, not by count. -/
theorem claim9_counterexample :
    (feedTicks c9times).length = 121 ∧ 120 < (feedTicks c9times).length := by
  have hbounds : ∀ t ∈ c9times, 0 ≤ t ∧ t < 120 := by
    intro t ht
    rw [c9times] at ht
    obtain ⟨k, hk, rfl⟩ := List.mem_map.mp ht
    rw [List.mem_range] at hk
    have hk' : (k : ℚ) ≤ 120 := by
      exact_mod_cast (by omega : k ≤ 120)
    constructor
    · positivity
    · linarith
  have h := foldTicks_length c9times [] (by simp) hbounds
  have hlen : (feedTicks c9times).length = 121 := by
    rw [feedTicks, h]
    simp only [List.length_nil, c9times, List.length_map, List.length_range]
  exact ⟨hlen, by rw [hlen]; norm_num⟩

/-- Claim C9 as amended: after an update, every retained sample's
timestamp is strictly newer than 120 seconds before the update; the
sample count itself is unbounded. -/
theorem claim9_history_window :
    ∀ (now price volume : ℚ) (history : List (ℚ × ℚ × ℚ)) (e : ℚ × ℚ × ℚ),
      e ∈ updateTick now price volume history → now - 120 < e.1 := by
  intro now p v h e he
  unfold updateTick at he
  have := (List.mem_filter.mp he).2
  simpa using this

/-- Claim C9 witness: the window property at a single tick at time 0. -/
theorem claim9_witness :
    ((0 : ℚ), (1 : ℚ), (1 : ℚ)) ∈ updateTick 0 1 1 [] ∧
      (0 : ℚ) - 120 < (((0 : ℚ), (1 : ℚ), (1 : ℚ)) : ℚ × ℚ × ℚ).1 := by
  have hm : (((0 : ℚ), (1 : ℚ), (1 : ℚ)) : ℚ × ℚ × ℚ) ∈ updateTick 0 1 1 [] := by
    unfold updateTick
    simp only [List.nil_append, List.filter, decide_eq_true_eq]
    norm_num
  exact ⟨hm, claim9_history_window 0 1 1 [] _ hm⟩

/-- Claim C6 witness: the combination rules at concrete layer outputs. -/
theorem claim6_witness :
    combineSignals "BUY" 0.6 "BUY" 0.7 false none = ("BUY", min 0.95 ((0.6 + 0.7) / 2 * 1.2)) ∧
      combineSignals "BUY" 0.6 "HOLD" 0.7 false none = ("BUY", 0.6 * 0.9) ∧
      combineSignals "HOLD" 0.6 "SELL" 0.7 false none = ("SELL", 0.7 * 0.9) ∧
      combineSignals "BUY" 0.8 "SELL" 0.7 false none = ("BUY", 0.8 * 0.6) ∧
      combineSignals "BUY" 0.6 "SELL" 0.7 false none = ("SELL", 0.7 * 0.6) :=
  ⟨claim6_two_layer_combination.2.1 "BUY" 0.6 0.7 false (by decide),
    claim6_two_layer_combination.2.2.1 "BUY" 0.6 0.7 false (by decide),
    claim6_two_layer_combination.2.2.2.1 "SELL" 0.6 0.7 false (by decide),
    claim6_two_layer_combination.2.2.2.2.1 "BUY" "SELL" 0.8 0.7 false (by decide)
      (by decide) (by decide) (by norm_num),
    claim6_two_layer_combination.2.2.2.2.2 "BUY" "SELL" 0.6 0.7 false (by decide)
      (by decide) (by decide) (by norm_num)⟩

end AutoTraderX
